import Mathlib

/-!
Verification of the literature-review pipeline in app.py.

The program is embedded shallowly: external collaborators (the HTML
fetch/parse library, the search engine, the language model, the clock)
become explicit parameters; every Python exception boundary becomes an
Except value; Python strings are Lean strings, with slicing and the
whitespace split modelled on the underlying character list.
-/

namespace LitReview

/-- Python slice s[:n], taking the first n characters. -/
def pyTruncate (s : String) (n : Nat) : String :=
  ⟨s.data.take n⟩

/-- Python s.startswith(pre). -/
def pyStartsWith (s pre : String) : Bool :=
  pre.data.isPrefixOf s.data

/-- Python whitespace split: cut at every whitespace character and drop
the empty pieces, exactly the behaviour of str.split with no argument. -/
def pyWords (l : List Char) : List (List Char) :=
  (l.splitOnP (fun c => c.isWhitespace)).filter (fun w => w ≠ [])

/-- clean_text from app.py: if not text return the empty string, else
join the whitespace-split words with single spaces. -/
def clean_text (text : String) : String :=
  if text = "" then ""
  else ⟨List.intercalate [' '] (pyWords text.data)⟩

/-- Outcome of the fetch/parse collaborator (newspaper3k Article) after
download and parse succeeded: the parsed title, the parsed text, and the
outcome of the nlp summary sub-step (none models the swallowed
exception inside the inner try of get_page_content). -/
structure ArticleData where
  title : String
  text : String
  summaryResult : Option String
deriving DecidableEq, Repr

/-- Result record of get_page_content. -/
structure PageResult where
  title : String
  body : String
  link : String
deriving DecidableEq, Repr

/-- Sentinel body for parsed-but-empty pages (app.py line 64). -/
def sentinelBody : String :=
  "Content not accessible - might be a PDF or protected content"

/-- Line 52-54 of app.py: summary is the nlp summary, or the empty
string when the nlp call raised. -/
def derived_summary (a : ArticleData) : String :=
  match a.summaryResult with
  | some s => s
  | none => ""

/-- Line 57 of app.py: title falls back to the url when falsy. -/
def derived_title (url : String) (a : ArticleData) : String :=
  if a.title ≠ "" then a.title else url

/-- Line 58 of app.py: content prefers the summary, else the article text. -/
def derived_content (a : ArticleData) : String :=
  if derived_summary a ≠ "" then derived_summary a else a.text

/-- get_page_content from app.py. The fetched argument is the outcome of
the outer try block around download and parse: ok carries the parsed
article, error carries str(e) of the raised exception. -/
def get_page_content (url : String) (fetched : Except String ArticleData) : PageResult :=
  match fetched with
  | Except.ok article =>
    let title := derived_title url article
    let content := derived_content article
    if title = "" ∧ content = "" then
      { title := url, body := sentinelBody, link := url }
    else
      { title := clean_text title
        body := clean_text (pyTruncate content 1500)
        link := url }
  | Except.error e =>
    { title := url, body := "Error extracting content: " ++ e, link := url }

/-- Default search domains of search_papers (app.py line 85). -/
def default_domains : List String :=
  ["arxiv.org", "scholar.google.com"]

/-- Line 83-85 of app.py: if not search_domains, use the default list.
A missing (None) argument and an empty list are both modelled by []. -/
def effective_domains (search_domains : List String) : List String :=
  if search_domains.isEmpty then default_domains else search_domains

/-- Line 88 of app.py: OR-joined site: clauses. -/
def domain_query (domains : List String) : String :=
  String.intercalate " OR " (domains.map (fun d => "site:" ++ d))

/-- Line 89 of app.py: the academic query string. -/
def academic_query (query : String) (domains : List String) : String :=
  query ++ " (research OR paper OR study OR journal) (" ++ domain_query domains ++ ")"

/-- Loop body of search_papers (app.py lines 92-100): extract each url,
keep the result when its body is truthy and does not start with the
error label, in order. The fixed sleep has no effect on the value. -/
def collect_results (fetch : String → Except String ArticleData) :
    List String → List PageResult
  | [] => []
  | url :: rest =>
    let paper_info := get_page_content url (fetch url)
    if paper_info.body ≠ "" ∧ pyStartsWith paper_info.body "Error extracting content" = false then
      paper_info :: collect_results fetch rest
    else
      collect_results fetch rest

/-- search_papers from app.py. searchFn is the googlesearch collaborator
(query and num_results to either a url list or an exception message);
fetch is the newspaper3k collaborator used by get_page_content. A
search failure is caught and yields the empty list (lines 101-103). -/
def search_papers (query : String) (max_results : Nat) (search_domains : List String)
    (searchFn : String → Nat → Except String (List String))
    (fetch : String → Except String ArticleData) : List PageResult :=
  let domains := effective_domains search_domains
  match searchFn (academic_query query domains) max_results with
  | Except.ok urls => collect_results fetch urls
  | Except.error _ => []

/-- Prompt template of analyze_paper (app.py lines 107-119). -/
def analyze_prompt (paper_info : PageResult) : String :=
  "\n    Please analyze this research paper/article and provide:\n    1. Key findings\n    2. Main methodology\n    3. Potential relevance to the research topic\n    \n    Paper Title: " ++ paper_info.title ++ "\n    Paper Link: " ++ paper_info.link ++ "\n    Description: " ++ paper_info.body ++ "\n    \n    Please be concise and focus on the most important points.\n    If the content is not accessible or unclear, please indicate that in your analysis.\n    "

/-- analyze_paper from app.py. chatFn is the ollama chat collaborator,
mapping the prompt to either the message content of the response or the
exception message; the except branch returns the labelled error string. -/
def analyze_paper (paper_info : PageResult)
    (chatFn : String → Except String String) : String :=
  match chatFn (analyze_prompt paper_info) with
  | Except.ok content => content
  | Except.error e => "Analysis error: " ++ e

/-- Enriched record built by the analysis loop in main (app.py lines 202-207). -/
structure AnalyzedPaper where
  title : String
  link : String
  body : String
  analysis : String
deriving DecidableEq, Repr

/-- Batch pipeline from main (app.py lines 195-207): one AnalyzedPaper
per input PageResult, in order, analysis produced by analyze_paper. -/
def batch_pipeline (papers : List PageResult)
    (chatFn : String → Except String String) : List AnalyzedPaper :=
  papers.map (fun paper =>
    { title := paper.title
      link := paper.link
      body := paper.body
      analysis := analyze_paper paper chatFn })

/-- Header of generate_markdown (app.py lines 137-141); now is the
formatted datetime.now() value, made an explicit argument. -/
def md_header (search_query now : String) : String :=
  "# Literature Review Results\n## Search Query: " ++ search_query ++
    "\n*Generated on: " ++ now ++ "*\n\n"

/-- One numbered section of generate_markdown (app.py lines 143-155). -/
def md_section (idx : Nat) (paper : AnalyzedPaper) : String :=
  "\n## " ++ Nat.repr idx ++ ". " ++ paper.title ++
    "\n\n**Link:** " ++ paper.link ++
    "\n\n**Description:**\n" ++ paper.body ++
    "\n\n**AI Analysis:**\n" ++ paper.analysis ++
    "\n\n---\n"

/-- The enumerate(papers_data, 1) loop of generate_markdown: append the
sections with indices counting from the given start. -/
def md_sections : Nat → List AnalyzedPaper → String
  | _, [] => ""
  | idx, paper :: rest => md_section idx paper ++ md_sections (idx + 1) rest

/-- generate_markdown from app.py, with the datetime.now() timestamp as
an explicit argument. -/
def generate_markdown (papers_data : List AnalyzedPaper)
    (search_query : String) (now : String) : String :=
  md_header search_query now ++ md_sections 1 papers_data

/-- Concatenation of a list of strings, spec-side view used to state
the section decomposition of the report. -/
def joinStrings : List String → String
  | [] => ""
  | s :: rest => s ++ joinStrings rest

/-- Spec-side view of the report sections: the list of section strings,
one per paper, numbered from the given start index. -/
def section_blocks : Nat → List AnalyzedPaper → List String
  | _, [] => []
  | idx, paper :: rest => md_section idx paper :: section_blocks (idx + 1) rest

/-- Number of occurrences of a character in a string. -/
def charCount (c : Char) (s : String) : Nat :=
  s.data.count c

/-- A 1502-character content string: one word, a run of 1500 spaces, a
second word. It distinguishes truncate-then-normalize from
normalize-then-truncate at the 1500-character bound. -/
def bigContent : String :=
  ⟨'a' :: (List.replicate 1500 ' ' ++ ['b'])⟩

/-! ## Supporting lemmas on whitespace collapsing -/

theorem splitOnP_length_sum (p : Char → Bool) (l : List Char) :
    ((l.splitOnP p).map List.length).sum + ((l.splitOnP p).length - 1) = l.length := by
  induction l with
  | nil => simp [List.splitOnP_nil]
  | cons c cs ih =>
    rw [List.splitOnP_cons]
    rcases h : List.splitOnP p cs with _ | ⟨hd, tl⟩
    · exact absurd h (List.splitOnP_ne_nil p cs)
    · rw [h] at ih
      split
      · simp only [List.map_cons, List.length_cons, List.sum_cons, List.length_nil]
        simp only [List.map_cons, List.length_cons, List.sum_cons] at ih
        omega
      · simp only [List.modifyHead, List.map_cons, List.sum_cons, List.length_cons]
        simp only [List.map_cons, List.length_cons, List.sum_cons] at ih
        omega

theorem filter_nonempty_sum (ps : List (List Char)) :
    (((ps.filter (fun w => w ≠ [])).map List.length).sum) = (ps.map List.length).sum := by
  induction ps with
  | nil => rfl
  | cons h t ih =>
    by_cases hh : h = []
    · subst hh
      rw [List.filter_cons_of_neg (by simp)]
      simpa using ih
    · rw [List.filter_cons_of_pos (by simpa using hh)]
      simp only [List.map_cons, List.sum_cons, ih]

theorem intercalate_single_length (c : Char) :
    ∀ qs : List (List Char),
      (List.intercalate [c] qs).length = (qs.map List.length).sum + (qs.length - 1) := by
  intro qs
  match qs with
  | [] => simp [List.intercalate]
  | [x] => simp [List.intercalate]
  | x :: y :: t =>
    have hsplit : List.intercalate [c] (x :: y :: t) =
        x ++ [c] ++ List.intercalate [c] (y :: t) := by
      simp [List.intercalate, List.intersperse]
    have ih := intercalate_single_length c (y :: t)
    rw [hsplit]
    simp only [List.length_append, ih, List.map_cons, List.sum_cons, List.length_cons]
    simp only [List.map_cons, List.sum_cons, List.length_cons, List.length_nil] at ih ⊢
    omega

/-- Collapsing whitespace never makes a string longer. -/
theorem clean_text_length_le (s : String) :
    (clean_text s).data.length ≤ s.data.length := by
  unfold clean_text
  split
  · simp
  · show (List.intercalate [' '] (pyWords s.data)).length ≤ s.data.length
    rw [intercalate_single_length]
    unfold pyWords
    rw [filter_nonempty_sum]
    have h1 := splitOnP_length_sum (fun c => c.isWhitespace) s.data
    have h2 : ((s.data.splitOnP fun c => c.isWhitespace).filter (fun w => w ≠ [])).length ≤
        (s.data.splitOnP fun c => c.isWhitespace).length := List.length_filter_le _ _
    omega

/-! ## Claim C1 -/

/-- C1: every exception crossing the fetch/parse boundary is caught and
encoded: get_page_content on an error outcome returns the record with
title = url, body = the message behind the fixed label, link = url. -/
theorem get_page_content_never_raises (url e : String) :
    get_page_content url (Except.error e) =
      { title := url, body := "Error extracting content: " ++ e, link := url } :=
  rfl

/-! ## Supporting lemmas on the extractor branches -/

theorem get_page_content_ok_branch (url : String) (a : ArticleData)
    (h : ¬(derived_title url a = "" ∧ derived_content a = "")) :
    get_page_content url (Except.ok a) =
      { title := clean_text (derived_title url a)
        body := clean_text (pyTruncate (derived_content a) 1500)
        link := url } := by
  simp only [get_page_content]
  rw [if_neg h]

theorem get_page_content_ok_sentinel_branch (url : String) (a : ArticleData)
    (h : derived_title url a = "" ∧ derived_content a = "") :
    get_page_content url (Except.ok a) =
      { title := url, body := sentinelBody, link := url } := by
  simp only [get_page_content]
  rw [if_pos h]

/-! ## Supporting lemmas on the orchestrator loop -/

theorem mem_collect_results {fetch : String → Except String ArticleData}
    {urls : List String} {p : PageResult} (h : p ∈ collect_results fetch urls) :
    p.body ≠ "" ∧ pyStartsWith p.body "Error extracting content" = false := by
  induction urls with
  | nil => simp [collect_results] at h
  | cons url rest ih =>
    simp only [collect_results] at h
    by_cases hc : (get_page_content url (fetch url)).body ≠ "" ∧
        pyStartsWith (get_page_content url (fetch url)).body "Error extracting content" = false
    · rw [if_pos hc] at h
      rcases List.mem_cons.mp h with h | h
      · subst h; exact hc
      · exact ih h
    · rw [if_neg hc] at h
      exact ih h

theorem get_mem_collect_results {fetch : String → Except String ArticleData}
    {urls : List String} {url : String} (hmem : url ∈ urls)
    (h1 : (get_page_content url (fetch url)).body ≠ "")
    (h2 : pyStartsWith (get_page_content url (fetch url)).body
      "Error extracting content" = false) :
    get_page_content url (fetch url) ∈ collect_results fetch urls := by
  induction urls with
  | nil => cases hmem
  | cons u rest ih =>
    simp only [collect_results]
    rcases List.mem_cons.mp hmem with h | h
    · subst h
      rw [if_pos ⟨h1, h2⟩]
      exact List.mem_cons_self _ _
    · split
      · exact List.mem_cons_of_mem _ (ih h)
      · exact ih h

theorem collect_results_length_le (fetch : String → Except String ArticleData)
    (urls : List String) :
    (collect_results fetch urls).length ≤ urls.length := by
  induction urls with
  | nil => simp [collect_results]
  | cons url rest ih =>
    simp only [collect_results]
    split
    · simpa using Nat.succ_le_succ ih
    · exact Nat.le_succ_of_le ih

theorem mem_search_papers {q : String} {mr : Nat} {sd : List String}
    {sf : String → Nat → Except String (List String)}
    {fetch : String → Except String ArticleData} {p : PageResult}
    (h : p ∈ search_papers q mr sd sf fetch) :
    p.body ≠ "" ∧ pyStartsWith p.body "Error extracting content" = false := by
  simp only [search_papers] at h
  cases hsf : sf (academic_query q (effective_domains sd)) mr with
  | error e => rw [hsf] at h; simp at h
  | ok urls => rw [hsf] at h; exact mem_collect_results h

/-- The label without colon checked by the filter is a prefix of the
labelled error body form, so the colon form never survives the filter. -/
theorem startsWith_colon_to_label (s : String)
    (h : pyStartsWith s "Error extracting content: " = true) :
    pyStartsWith s "Error extracting content" = true := by
  unfold pyStartsWith at h ⊢
  rw [List.isPrefixOf_iff_prefix] at h ⊢
  exact List.IsPrefix.trans (by decide) h

/-! ## Claim C2 -/

/-- C2: the orchestrator excludes every PageResult whose body starts
with the extraction-error label, and the sentinel body is not filtered:
an extraction carrying the sentinel body for a searched url appears in
the returned list. -/
theorem search_papers_error_filter :
    (∀ (q : String) (mr : Nat) (sd : List String)
        (sf : String → Nat → Except String (List String))
        (fetch : String → Except String ArticleData) (p : PageResult),
        p ∈ search_papers q mr sd sf fetch →
        pyStartsWith p.body "Error extracting content: " = false) ∧
    (∀ (q : String) (mr : Nat) (sd : List String)
        (sf : String → Nat → Except String (List String))
        (fetch : String → Except String ArticleData) (urls : List String) (url : String),
        sf (academic_query q (effective_domains sd)) mr = Except.ok urls →
        url ∈ urls →
        (get_page_content url (fetch url)).body = sentinelBody →
        get_page_content url (fetch url) ∈ search_papers q mr sd sf fetch) := by
  constructor
  · intro q mr sd sf fetch p h
    have hmem := mem_search_papers h
    cases hcolon : pyStartsWith p.body "Error extracting content: " with
    | false => rfl
    | true => exact absurd (startsWith_colon_to_label p.body hcolon) (by simp [hmem.2])
  · intro q mr sd sf fetch urls url hsf hmem hbody
    simp only [search_papers]
    rw [hsf]
    refine get_mem_collect_results hmem ?_ ?_
    · rw [hbody]; intro hcontra; exact absurd hcontra (by decide)
    · rw [hbody]; decide

theorem search_papers_error_filter_witness :
    get_page_content "u"
        ((fun _ => Except.ok (ArticleData.mk "T" sentinelBody none)) "u") ∈
      search_papers "q" 1 [] (fun _ _ => Except.ok ["u"])
        (fun _ => Except.ok (ArticleData.mk "T" sentinelBody none)) :=
  search_papers_error_filter.2 "q" 1 [] (fun _ _ => Except.ok ["u"])
    (fun _ => Except.ok (ArticleData.mk "T" sentinelBody none)) ["u"] "u"
    rfl (by simp) (by decide)

/-! ## Claim C8 -/

/-- C8: when the search collaborator yields at most max_results urls,
the orchestrator returns at most max_results PageResults; and the
effective domain list for an empty domains argument is exactly
arxiv.org and scholar.google.com. -/
theorem search_papers_bounded :
    (∀ (q : String) (mr : Nat) (sd : List String)
        (sf : String → Nat → Except String (List String))
        (fetch : String → Except String ArticleData),
        (∀ (s : String) (n : Nat) (urls : List String),
          sf s n = Except.ok urls → urls.length ≤ n) →
        (search_papers q mr sd sf fetch).length ≤ mr) ∧
    effective_domains [] = ["arxiv.org", "scholar.google.com"] := by
  constructor
  · intro q mr sd sf fetch hsf
    simp only [search_papers]
    cases h : sf (academic_query q (effective_domains sd)) mr with
    | error e => simp
    | ok urls =>
      calc (collect_results fetch urls).length
          ≤ urls.length := collect_results_length_le fetch urls
        _ ≤ mr := hsf _ _ _ h
  · rfl

theorem search_papers_bounded_witness :
    (search_papers "q" 3 [] (fun _ _ => Except.ok [])
      (fun _ => Except.error "down")).length ≤ 3 :=
  search_papers_bounded.1 "q" 3 [] (fun _ _ => Except.ok [])
    (fun _ => Except.error "down")
    (fun s n urls h => by cases h; simp)

/-! ## Claim C10 -/

/-- C10: every returned PageResult has a non-empty body; and a page
whose extraction succeeds with empty summary and empty text while the
title falls back to a non-empty url yields the empty body, which is
neither the sentinel nor error-labelled yet never appears in any
orchestrator output. -/
theorem search_papers_body_nonempty :
    (∀ (q : String) (mr : Nat) (sd : List String)
        (sf : String → Nat → Except String (List String))
        (fetch : String → Except String ArticleData) (p : PageResult),
        p ∈ search_papers q mr sd sf fetch → p.body ≠ "") ∧
    (∀ (url : String) (a : ArticleData),
        url ≠ "" → a.title = "" → derived_summary a = "" → a.text = "" →
        (get_page_content url (Except.ok a)).body = "" ∧
        (get_page_content url (Except.ok a)).body ≠ sentinelBody ∧
        pyStartsWith (get_page_content url (Except.ok a)).body
          "Error extracting content: " = false ∧
        ∀ (q : String) (mr : Nat) (sd : List String)
          (sf : String → Nat → Except String (List String))
          (fetch : String → Except String ArticleData),
          get_page_content url (Except.ok a) ∉ search_papers q mr sd sf fetch) := by
  constructor
  · intro q mr sd sf fetch p h
    exact (mem_search_papers h).1
  · intro url a hurl htitle hsum htext
    have hdt : derived_title url a = url := by
      unfold derived_title
      rw [htitle]
      simp
    have hdc : derived_content a = "" := by
      unfold derived_content
      rw [hsum, htext]
      simp
    have hcond : ¬(derived_title url a = "" ∧ derived_content a = "") := by
      intro hcontra
      rw [hdt] at hcontra
      exact hurl hcontra.1
    have hbody : (get_page_content url (Except.ok a)).body = "" := by
      rw [get_page_content_ok_branch url a hcond, hdc]
      rfl
    refine ⟨hbody, ?_, ?_, ?_⟩
    · rw [hbody]; intro hcontra; exact absurd hcontra (by decide)
    · rw [hbody]; decide
    · intro q mr sd sf fetch hmem
      exact (mem_search_papers hmem).1 hbody

theorem search_papers_body_nonempty_witness :
    get_page_content "u" (Except.ok (ArticleData.mk "" "" none)) ∉
      search_papers "q" 1 [] (fun _ _ => Except.ok ["u"])
        (fun _ => Except.ok (ArticleData.mk "" "" none)) :=
  ((search_papers_body_nonempty.2 "u" (ArticleData.mk "" "" none)
      (by decide) rfl rfl rfl).2.2.2) "q" 1 [] (fun _ _ => Except.ok ["u"])
    (fun _ => Except.ok (ArticleData.mk "" "" none))

/-! ## Claim C9 -/

/-- C9: the analyzer never raises: a throwing collaborator yields the
labelled error string with the message appended, and a succeeding one
yields the model text verbatim. -/
theorem analyze_paper_never_raises (p : PageResult)
    (chatFn : String → Except String String) :
    (∀ e : String, chatFn (analyze_prompt p) = Except.error e →
      analyze_paper p chatFn = "Analysis error: " ++ e) ∧
    (∀ s : String, chatFn (analyze_prompt p) = Except.ok s →
      analyze_paper p chatFn = s) := by
  constructor <;> intro x hx <;> simp [analyze_paper, hx]

theorem analyze_paper_never_raises_witness :
    analyze_paper (PageResult.mk "T" "B" "u") (fun _ => Except.error "boom") =
      "Analysis error: " ++ "boom" :=
  (analyze_paper_never_raises (PageResult.mk "T" "B" "u")
    (fun _ => Except.error "boom")).1 "boom" rfl

/-! ## Claim C4 -/

/-- C4: the report generator is deterministic: equal paper lists, equal
query, and equal timestamp produce equal markdown strings; the only
run-dependent input, the clock, is an explicit argument of the model. -/
theorem generate_markdown_deterministic
    (p₁ p₂ : List AnalyzedPaper) (q₁ q₂ t₁ t₂ : String)
    (hp : p₁ = p₂) (hq : q₁ = q₂) (ht : t₁ = t₂) :
    generate_markdown p₁ q₁ t₁ = generate_markdown p₂ q₂ t₂ := by
  subst hp; subst hq; subst ht; rfl

theorem generate_markdown_deterministic_witness :
    generate_markdown [AnalyzedPaper.mk "T" "u" "B" "A"] "q" "now" =
      generate_markdown [AnalyzedPaper.mk "T" "u" "B" "A"] "q" "now" :=
  generate_markdown_deterministic
    [AnalyzedPaper.mk "T" "u" "B" "A"] [AnalyzedPaper.mk "T" "u" "B" "A"]
    "q" "q" "now" "now" rfl rfl rfl

/-! ## Claim C7 -/

/-- C7: when fetch and parse succeed but the derived title and the
derived content are both empty, the extractor returns the sentinel
record with the fixed inaccessible-content body and title = link = url. -/
theorem get_page_content_sentinel (url : String) (a : ArticleData)
    (ht : derived_title url a = "") (hc : derived_content a = "") :
    get_page_content url (Except.ok a) =
      { title := url
        body := "Content not accessible - might be a PDF or protected content"
        link := url } :=
  get_page_content_ok_sentinel_branch url a ⟨ht, hc⟩

theorem get_page_content_sentinel_witness :
    get_page_content "" (Except.ok (ArticleData.mk "" "" none)) =
      { title := ""
        body := "Content not accessible - might be a PDF or protected content"
        link := "" } :=
  get_page_content_sentinel "" (ArticleData.mk "" "" none) (by decide) (by decide)

/-! ## Claim C3 -/

/-- C3: for a non-empty orchestrator output, the batch pipeline yields
exactly one AnalyzedPaper per input PageResult, in the same order, with
the link of position i equal to the link of input position i. -/
theorem batch_pipeline_one_per_paper
    (q : String) (mr : Nat) (sd : List String)
    (sf : String → Nat → Except String (List String))
    (fetch : String → Except String ArticleData)
    (chatFn : String → Except String String)
    (hne : search_papers q mr sd sf fetch ≠ []) :
    (batch_pipeline (search_papers q mr sd sf fetch) chatFn).length =
        (search_papers q mr sd sf fetch).length ∧
    ∀ i : Nat,
      ((batch_pipeline (search_papers q mr sd sf fetch) chatFn).get? i).map
          AnalyzedPaper.link =
        ((search_papers q mr sd sf fetch).get? i).map PageResult.link := by
  constructor
  · simp [batch_pipeline]
  · intro i
    simp only [batch_pipeline, List.get?_map, Option.map_map]
    congr 1

/-! ## Supporting lemmas for the truncation-order counterexample -/

theorem splitOnP_replicate_space (n : Nat) :
    (List.replicate n ' ').splitOnP (fun c => c.isWhitespace) = List.replicate (n + 1) [] := by
  induction n with
  | zero => simp [List.splitOnP_nil]
  | succ n ih =>
    rw [List.replicate_succ, List.splitOnP_cons, if_pos (by decide), ih,
      List.replicate_succ (n := n + 1)]

theorem splitOnP_replicate_space_append (n : Nat) :
    ((List.replicate n ' ') ++ ['b']).splitOnP (fun c => c.isWhitespace) =
      List.replicate n [] ++ [['b']] := by
  induction n with
  | zero =>
    simp only [List.replicate_zero, List.nil_append]
    rw [List.splitOnP_cons, if_neg (by decide), List.splitOnP_nil]
    rfl
  | succ n ih =>
    rw [List.replicate_succ, List.cons_append, List.splitOnP_cons, if_pos (by decide), ih,
      List.replicate_succ, List.cons_append]

theorem filter_nonempty_replicate_nil (n : Nat) :
    (List.replicate n ([] : List Char)).filter (fun w => w ≠ []) = [] := by
  induction n with
  | zero => rfl
  | succ n ih => rw [List.replicate_succ, List.filter_cons_of_neg (by simp), ih]

theorem bigContent_ne_empty : bigContent ≠ "" := by
  intro h
  have h2 : bigContent.data = [] := by rw [h]
  exact List.cons_ne_nil _ _ h2

/-- Normalizing the whole 1502-character string collapses the space run:
both words survive. -/
theorem clean_text_bigContent : clean_text bigContent = "a b" := by
  rw [clean_text, if_neg bigContent_ne_empty]
  have hdata : bigContent.data = 'a' :: (List.replicate 1500 ' ' ++ ['b']) := rfl
  rw [hdata]
  unfold pyWords
  rw [List.splitOnP_cons, if_neg (by decide), splitOnP_replicate_space_append]
  have h1500 : List.replicate 1500 ([] : List Char) = [] :: List.replicate 1499 [] := by
    rw [show (1500 : Nat) = 1499 + 1 by norm_num, List.replicate_succ]
  rw [h1500]
  simp only [List.modifyHead, List.cons_append]
  rw [List.filter_cons_of_pos (by simp), List.filter_append, filter_nonempty_replicate_nil,
    List.filter_cons_of_pos (by simp)]
  rfl

/-- Truncating the 1502-character string first cuts off the second word. -/
theorem pyTruncate_bigContent :
    pyTruncate bigContent 1500 = ⟨'a' :: List.replicate 1499 ' '⟩ := by
  unfold pyTruncate
  have hdata : bigContent.data = 'a' :: (List.replicate 1500 ' ' ++ ['b']) := rfl
  rw [hdata]
  rw [show (1500 : Nat) = 1499 + 1 by norm_num, List.take_succ_cons]
  rw [List.take_append_of_le_length (by rw [List.length_replicate]; omega),
    List.take_replicate]
  norm_num

theorem clean_text_pyTruncate_bigContent :
    clean_text (pyTruncate bigContent 1500) = "a" := by
  rw [pyTruncate_bigContent, clean_text,
    if_neg (fun h => List.cons_ne_nil 'a' _ (congrArg String.data h))]
  show (List.intercalate [' '] (pyWords ('a' :: List.replicate 1499 ' '))).asString = "a"
  unfold pyWords
  rw [List.splitOnP_cons, if_neg (by decide), splitOnP_replicate_space, List.replicate_succ]
  simp only [List.modifyHead]
  rw [List.filter_cons_of_pos (by simp), filter_nonempty_replicate_nil]
  rfl

/-! ## Claim C5 -/

/-- C5 counterexample: on a successfully fetched page whose text is one
word, a run of 1500 spaces, and a second word, the extractor body is the
normalization of the first 1500 characters, namely the single word a,
while the claimed normalize-then-truncate order would give both words:
the claimed equation fails at this input. -/
theorem get_page_content_truncation_counterexample :
    (get_page_content "u" (Except.ok (ArticleData.mk "T" bigContent none))).body = "a" ∧
    pyTruncate (clean_text bigContent) 1500 = "a b" ∧
    ("a" : String) ≠ "a b" := by
  refine ⟨?_, ?_, by decide⟩
  · have hcond : ¬(derived_title "u" (ArticleData.mk "T" bigContent none) = "" ∧
        derived_content (ArticleData.mk "T" bigContent none) = "") := by
      intro hcontra
      exact absurd hcontra.1 (by decide)
    rw [get_page_content_ok_branch "u" (ArticleData.mk "T" bigContent none) hcond]
    show clean_text (pyTruncate (derived_content (ArticleData.mk "T" bigContent none)) 1500) = "a"
    have hdc : derived_content (ArticleData.mk "T" bigContent none) = bigContent := rfl
    rw [hdc, clean_text_pyTruncate_bigContent]
  · rw [clean_text_bigContent]
    decide

/-- C5 amended: on success with a non-empty derived title or content,
the extractor returns normalize(title) and normalize(content[:1500]),
truncation applied before normalization, and the body never exceeds
1500 characters. -/
theorem get_page_content_success_truncation (url : String) (a : ArticleData)
    (h : ¬(derived_title url a = "" ∧ derived_content a = "")) :
    get_page_content url (Except.ok a) =
      { title := clean_text (derived_title url a)
        body := clean_text (pyTruncate (derived_content a) 1500)
        link := url } ∧
    (get_page_content url (Except.ok a)).body.data.length ≤ 1500 := by
  refine ⟨get_page_content_ok_branch url a h, ?_⟩
  rw [get_page_content_ok_branch url a h]
  show (clean_text (pyTruncate (derived_content a) 1500)).data.length ≤ 1500
  calc (clean_text (pyTruncate (derived_content a) 1500)).data.length
      ≤ (pyTruncate (derived_content a) 1500).data.length :=
        clean_text_length_le _
    _ ≤ 1500 := List.length_take_le _ _

theorem get_page_content_success_truncation_witness :
    (get_page_content "u" (Except.ok (ArticleData.mk "T" "hello world" none))).body.data.length
      ≤ 1500 :=
  (get_page_content_success_truncation "u" (ArticleData.mk "T" "hello world" none)
    (by intro hcontra; exact absurd hcontra.1 (by decide))).2

theorem batch_pipeline_one_per_paper_witness :
    (batch_pipeline
        (search_papers "q" 1 [] (fun _ _ => Except.ok ["u"])
          (fun _ => Except.ok (ArticleData.mk "T" "hello" none)))
        (fun _ => Except.ok "fine")).length =
      (search_papers "q" 1 [] (fun _ _ => Except.ok ["u"])
        (fun _ => Except.ok (ArticleData.mk "T" "hello" none))).length :=
  (batch_pipeline_one_per_paper "q" 1 [] (fun _ _ => Except.ok ["u"])
    (fun _ => Except.ok (ArticleData.mk "T" "hello" none))
    (fun _ => Except.ok "fine") (by decide)).1

/-! ## Supporting lemmas for counting report sections -/

theorem digitChar_ne_hash (d : Nat) : Nat.digitChar d ≠ '#' := by
  match d with
  | 0 | 1 | 2 | 3 | 4 | 5 | 6 | 7 | 8 | 9 | 10 | 11 | 12 | 13 | 14 | 15 => decide
  | (n + 16) =>
    have h : Nat.digitChar (n + 16) = '*' := by
      unfold Nat.digitChar
      repeat rw [if_neg (by omega)]
    rw [h]; decide

theorem toDigitsCore_count_hash (b : Nat) :
    ∀ (fuel n : Nat) (acc : List Char), acc.count '#' = 0 →
      (Nat.toDigitsCore b fuel n acc).count '#' = 0 := by
  intro fuel
  induction fuel with
  | zero => intro n acc h; simpa [Nat.toDigitsCore] using h
  | succ fuel ih =>
    intro n acc h
    simp only [Nat.toDigitsCore]
    split
    · simp [List.count_cons, h, digitChar_ne_hash]
    · exact ih _ _ (by simp [List.count_cons, h, digitChar_ne_hash])

/-- Decimal digit strings contain no hash mark. -/
theorem charCount_hash_repr (n : Nat) : charCount '#' (Nat.repr n) = 0 := by
  show (Nat.toDigits 10 n).count '#' = 0
  exact toDigitsCore_count_hash 10 _ n [] rfl

theorem charCount_append (c : Char) (s t : String) :
    charCount c (s ++ t) = charCount c s + charCount c t := by
  simp [charCount, String.data_append, List.count_append]

theorem md_sections_eq_join (papers : List AnalyzedPaper) :
    ∀ idx : Nat, md_sections idx papers = joinStrings (section_blocks idx papers) := by
  induction papers with
  | nil => intro idx; rfl
  | cons p rest ih =>
    intro idx
    simp only [md_sections, section_blocks, joinStrings]
    rw [ih (idx + 1)]

theorem section_blocks_length (papers : List AnalyzedPaper) :
    ∀ idx : Nat, (section_blocks idx papers).length = papers.length := by
  induction papers with
  | nil => intro idx; rfl
  | cons p rest ih =>
    intro idx
    simp only [section_blocks, List.length_cons, ih (idx + 1)]

theorem section_blocks_get (papers : List AnalyzedPaper) :
    ∀ (idx i : Nat), (section_blocks idx papers).get? i =
      (papers.get? i).map (fun p => md_section (idx + i) p) := by
  induction papers with
  | nil => intro idx i; simp [section_blocks]
  | cons p rest ih =>
    intro idx i
    cases i with
    | zero => simp [section_blocks]
    | succ i =>
      simp only [section_blocks, List.get?_cons_succ, ih (idx + 1) i]
      have harith : idx + 1 + i = idx + (i + 1) := by omega
      rw [harith]

theorem charCount_hash_md_section (idx : Nat) (p : AnalyzedPaper)
    (h1 : charCount '#' p.title = 0) (h2 : charCount '#' p.link = 0)
    (h3 : charCount '#' p.body = 0) (h4 : charCount '#' p.analysis = 0) :
    charCount '#' (md_section idx p) = 2 := by
  simp only [md_section, charCount_append, h1, h2, h3, h4, charCount_hash_repr]
  decide

theorem charCount_hash_md_header (q t : String)
    (hq : charCount '#' q = 0) (ht : charCount '#' t = 0) :
    charCount '#' (md_header q t) = 3 := by
  simp only [md_header, charCount_append, hq, ht]
  decide

theorem charCount_hash_md_sections (papers : List AnalyzedPaper)
    (hben : ∀ p ∈ papers, charCount '#' p.title = 0 ∧ charCount '#' p.link = 0 ∧
      charCount '#' p.body = 0 ∧ charCount '#' p.analysis = 0) :
    ∀ idx : Nat, charCount '#' (md_sections idx papers) = 2 * papers.length := by
  induction papers with
  | nil => intro idx; rfl
  | cons p rest ih =>
    intro idx
    have hp := hben p (List.mem_cons_self p rest)
    simp only [md_sections, charCount_append,
      charCount_hash_md_section idx p hp.1 hp.2.1 hp.2.2.1 hp.2.2.2,
      ih (fun x hx => hben x (List.mem_cons_of_mem p hx)) (idx + 1), List.length_cons]
    omega

/-! ## Claim C6 -/

/-- C6: the report is the header followed by exactly one section per
paper, in input order: the block list has one entry per paper, block i
is the section numbered i+1 rendered from paper i, and under
hash-free fields the hash count of the whole report is exactly the 3
header hashes plus 2 per paper section. -/
theorem generate_markdown_one_section_per_paper
    (papers : List AnalyzedPaper) (q t : String) :
    generate_markdown papers q t = md_header q t ++ joinStrings (section_blocks 1 papers) ∧
    (section_blocks 1 papers).length = papers.length ∧
    (∀ i : Nat, (section_blocks 1 papers).get? i =
        (papers.get? i).map (fun p => md_section (1 + i) p)) ∧
    (charCount '#' q = 0 → charCount '#' t = 0 →
      (∀ p ∈ papers, charCount '#' p.title = 0 ∧ charCount '#' p.link = 0 ∧
        charCount '#' p.body = 0 ∧ charCount '#' p.analysis = 0) →
      charCount '#' (generate_markdown papers q t) = 3 + 2 * papers.length) := by
  refine ⟨?_, section_blocks_length papers 1, section_blocks_get papers 1, ?_⟩
  · simp only [generate_markdown, md_sections_eq_join papers 1]
  · intro hq ht hben
    simp only [generate_markdown, charCount_append,
      charCount_hash_md_header q t hq ht, charCount_hash_md_sections papers hben 1]

theorem generate_markdown_one_section_per_paper_witness :
    charCount '#' (generate_markdown [AnalyzedPaper.mk "T" "u" "B" "A"] "q" "now") =
      3 + 2 * 1 :=
  (generate_markdown_one_section_per_paper [AnalyzedPaper.mk "T" "u" "B" "A"] "q" "now").2.2.2
    (by decide) (by decide) (by decide)

end LitReview
